import Mathlib

/-!
Verification of the network-radar repository (src/app.py, src/agent.py).

Shallow embedding conventions:
* Latencies are rationals (Python floats measuring milliseconds).
* Timestamps are integers (the code stores ISO-8601 UTC strings, whose
  SQLite TEXT comparison agrees with chronological order for the uniform
  format produced by datetime.isoformat, so time is embedded as a number).
* The outcome of each external observation (subprocess exit, socket
  connect, HTTP response, DNS lookup) is supplied as an explicit
  environment value; the checker functions reproduce the branch structure
  of the Python code on those observations.
* Python exceptions are embedded as explicit alternatives (Except or
  environment constructors).
-/

namespace NetworkRadar

/-- Details dict built by the HTTP checkers (details TEXT column payload).
The Python code starts from an empty dict and fills in status_code and
content_type when a response arrives, so both fields are optional. -/
structure HttpDetails where
  status_code : Option Nat
  content_type : Option String
deriving DecidableEq, Repr

/-- A monitoring target as read from the YAML config (dict in the code;
absent keys are `none`). `type` defaults to ping at the dispatch sites. -/
structure Target where
  name : String
  host : String
  type : Option String
  port : Option Nat
  dns_server : Option String
deriving DecidableEq, Repr

/-- Observed behaviour of the ping subprocess in `ping_host`. -/
inductive PingEnv where
  /-- exit code 0 and an average round-trip time parsed from the output -/
  | okParsed (avg : ℚ)
  /-- exit code 0 but no latency could be parsed from the output -/
  | okUnparsed
  /-- non-zero exit code -/
  | unreachable
  /-- subprocess.TimeoutExpired -/
  | timeout
  /-- any other exception, carrying str(e) -/
  | exc (msg : String)
deriving DecidableEq, Repr

/-- src/app.py ping_host and src/agent.py ping_host (identical logic):
returns (success, avg_latency_ms, error). -/
def ping_host : PingEnv → Bool × ℚ × Option String
  | .okParsed avg => (true, avg, none)
  | .okUnparsed => (true, 0, none)
  | .unreachable => (false, 0, some "Host unreachable")
  | .timeout => (false, 0, some "Timeout")
  | .exc msg => (false, 0, some msg)

/-- Observed behaviour of the HTTP GET in `check_http`. -/
inductive HttpEnv where
  /-- a response arrived with this status code, Content-Type header and
  wall-clock latency in ms -/
  | response (code : Nat) (contentType : Option String) (elapsed : ℚ)
  /-- asyncio.TimeoutError -/
  | timeout
  /-- aiohttp.ClientError or any other exception, carrying str(e) -/
  | exc (msg : String)
deriving DecidableEq, Repr

/-- src/app.py check_http: (success, latency_ms, error, details); the
content type defaults to the string unknown when the header is absent. -/
def check_http : HttpEnv → Bool × ℚ × Option String × Option HttpDetails
  | .response code ct elapsed =>
      if 200 ≤ code ∧ code < 400 then
        (true, elapsed, none, some ⟨some code, some (ct.getD "unknown")⟩)
      else
        (false, elapsed, some ("HTTP " ++ toString code),
          some ⟨some code, some (ct.getD "unknown")⟩)
  | .timeout => (false, 0, some "Timeout", some ⟨none, none⟩)
  | .exc msg => (false, 0, some msg, some ⟨none, none⟩)

/-- Observed behaviour of the socket connect in `check_tcp`. -/
inductive TcpEnv where
  /-- connect_ex returned this error code (0 = connected) after this
  wall-clock latency -/
  | connectResult (code : Int) (elapsed : ℚ)
  /-- socket.timeout -/
  | timeout
  /-- socket.gaierror, carrying its rendered message -/
  | gaierror (msg : String)
  /-- any other exception, carrying str(e) -/
  | exc (msg : String)
deriving DecidableEq, Repr

/-- src/app.py check_tcp and src/agent.py check_tcp (identical logic). -/
def check_tcp : TcpEnv → Bool × ℚ × Option String
  | .connectResult code elapsed =>
      if code = 0 then (true, elapsed, none)
      else (false, elapsed,
        some ("Connection refused (error: " ++ toString code ++ ")"))
  | .timeout => (false, 0, some "Timeout")
  | .gaierror msg => (false, 0, some ("DNS resolution failed: " ++ msg))
  | .exc msg => (false, 0, some msg)

/-- Observed behaviour of the gethostbyname fallback used when dig is not
installed. -/
inductive DnsFallback where
  | resolved (elapsed : ℚ)
  | gaierror (msg : String)
deriving DecidableEq, Repr

/-- Observed behaviour of the dig subprocess in src/app.py check_dns. -/
inductive DnsEnv where
  /-- dig ran: exit code, whether stdout.strip() is non-empty, latency -/
  | digResult (exitCode : Int) (stdoutNonempty : Bool) (elapsed : ℚ)
  /-- subprocess.TimeoutExpired -/
  | timeout
  /-- FileNotFoundError: dig missing, socket fallback used -/
  | digMissing (fb : DnsFallback)
  /-- any other exception, carrying str(e) -/
  | exc (msg : String)
deriving DecidableEq, Repr

/-- src/app.py check_dns. -/
def check_dns : DnsEnv → Bool × ℚ × Option String
  | .digResult exitCode stdoutNonempty elapsed =>
      if exitCode = 0 ∧ stdoutNonempty then (true, elapsed, none)
      else (false, elapsed, some "DNS resolution failed")
  | .timeout => (false, 0, some "Timeout")
  | .digMissing (.resolved elapsed) => (true, elapsed, none)
  | .digMissing (.gaierror msg) => (false, 0, some msg)
  | .exc msg => (false, 0, some msg)

/-- Environment for one probe of a target by src/app.py check_target: one
observation per protocol; the dispatch selects the component matching the
target type. -/
structure Envs where
  ping : PingEnv
  http : HttpEnv
  tcp : TcpEnv
  dns : DnsEnv
deriving DecidableEq, Repr

/-- The (success, latency, error, details) tuple computed by the dispatch
in src/app.py check_target lines 374-392: type defaults to ping; an
unrecognized type leaves the initial values (False, 0.0, None, None). -/
def probe_result (t : Target) (env : Envs) :
    Bool × ℚ × Option String × Option HttpDetails :=
  let ttype := t.type.getD "ping"
  if ttype = "ping" then
    let r := ping_host env.ping
    (r.1, r.2.1, r.2.2, none)
  else if ttype = "http" then
    check_http env.http
  else if ttype = "tcp" then
    let r := check_tcp env.tcp
    (r.1, r.2.1, r.2.2, none)
  else if ttype = "dns" then
    let r := check_dns env.dns
    (r.1, r.2.1, r.2.2, none)
  else
    (false, 0, none, none)

/-- Status derivation in src/app.py check_target lines 394-401. -/
def derive_status (success : Bool) (latency : ℚ) : String :=
  if success then
    if 500 < latency then "degraded" else "online"
  else "offline"

/-- Python round(x, 2) embedded on rationals (rounding mode immaterial to
every claim; only the unrounded latency feeds the status threshold). -/
def round2 (q : ℚ) : ℚ := (round (q * 100) : ℚ) / 100

/-- CheckResult dataclass of src/app.py. -/
structure CheckResult where
  target_name : String
  status : String
  latency_ms : ℚ
  timestamp : Int
  error : Option String
  details : Option HttpDetails
deriving DecidableEq, Repr

/-- src/app.py check_target: dispatch, status derivation, result record.
The timestamp is the clock reading at construction, passed in as now. -/
def check_target (t : Target) (env : Envs) (now : Int) : CheckResult :=
  let p := probe_result t env
  { target_name := t.name
    status := derive_status p.1 p.2.1
    latency_ms := round2 p.2.1
    timestamp := now
    error := p.2.2.1
    details := p.2.2.2 }

/-- src/agent.py check_http: identical branch structure to the server
variant, but the Content-Type header is stored without a default. -/
def agent_check_http : HttpEnv → Bool × ℚ × Option String × Option HttpDetails
  | .response code ct elapsed =>
      if 200 ≤ code ∧ code < 400 then
        (true, elapsed, none, some ⟨some code, ct⟩)
      else
        (false, elapsed, some ("HTTP " ++ toString code), some ⟨some code, ct⟩)
  | .timeout => (false, 0, some "Timeout", some ⟨none, none⟩)
  | .exc msg => (false, 0, some msg, some ⟨none, none⟩)

/-- Observed behaviour of the dig subprocess in src/agent.py check_dns
(no subprocess-level timeout path in the async variant). -/
inductive AgentDnsEnv where
  | digResult (exitCode : Int) (stdoutNonempty : Bool) (elapsed : ℚ)
  | digMissing (fb : DnsFallback)
  | exc (msg : String)
deriving DecidableEq, Repr

/-- src/agent.py check_dns. -/
def agent_check_dns : AgentDnsEnv → Bool × ℚ × Option String
  | .digResult exitCode stdoutNonempty elapsed =>
      if exitCode = 0 ∧ stdoutNonempty then (true, elapsed, none)
      else (false, elapsed, some "DNS resolution failed")
  | .digMissing (.resolved elapsed) => (true, elapsed, none)
  | .digMissing (.gaierror msg) => (false, 0, some msg)
  | .exc msg => (false, 0, some msg)

/-- Environment for one probe of a target by the agent. -/
structure AgentEnvs where
  ping : PingEnv
  http : HttpEnv
  tcp : TcpEnv
  dns : AgentDnsEnv
deriving DecidableEq, Repr

/-- The (success, latency, error, details) tuple computed by the dispatch
in src/agent.py run_cycle lines 131-146: type defaults to ping; an
unrecognized type yields (False, 0.0, Unknown type, None). -/
def agent_probe_result (t : Target) (env : AgentEnvs) :
    Bool × ℚ × Option String × Option HttpDetails :=
  let ttype := t.type.getD "ping"
  if ttype = "http" then
    agent_check_http env.http
  else if ttype = "ping" then
    let r := ping_host env.ping
    (r.1, r.2.1, r.2.2, none)
  else if ttype = "tcp" then
    let r := check_tcp env.tcp
    (r.1, r.2.1, r.2.2, none)
  else if ttype = "dns" then
    let r := agent_check_dns env.dns
    (r.1, r.2.1, r.2.2, none)
  else
    (false, 0, some "Unknown type", none)

/-- Status expression in src/agent.py run_cycle line 148. -/
def agent_status (success : Bool) (latency : ℚ) : String :=
  if success ∧ latency ≤ 500 then "online"
  else if success then "degraded" else "offline"

/-- The outcome dict built by run_target in src/agent.py run_cycle. -/
structure AgentOutcome where
  target_name : String
  host : String
  type : String
  status : String
  latency_ms : ℚ
  timestamp : Int
  error : Option String
  details : Option HttpDetails
deriving DecidableEq, Repr

/-- src/agent.py run_cycle run_target: dispatch plus outcome dict. -/
def agent_run_target (t : Target) (env : AgentEnvs) (now : Int) : AgentOutcome :=
  let p := agent_probe_result t env
  { target_name := t.name
    host := t.host
    type := t.type.getD "ping"
    status := agent_status p.1 p.2.1
    latency_ms := round2 p.2.1
    timestamp := now
    error := p.2.2.1
    details := p.2.2.2 }

/-! Basic facts about the probe engine. -/

theorem check_target_status (t : Target) (env : Envs) (now : Int) :
    (check_target t env now).status =
      derive_status (probe_result t env).1 (probe_result t env).2.1 := rfl

theorem check_target_error (t : Target) (env : Envs) (now : Int) :
    (check_target t env now).error = (probe_result t env).2.2.1 := rfl

theorem agent_run_target_status (t : Target) (env : AgentEnvs) (now : Int) :
    (agent_run_target t env now).status =
      agent_status (agent_probe_result t env).1 (agent_probe_result t env).2.1 := rfl

theorem agent_run_target_error (t : Target) (env : AgentEnvs) (now : Int) :
    (agent_run_target t env now).error = (agent_probe_result t env).2.2.1 := rfl

theorem ping_host_err (e : PingEnv) (h : (ping_host e).1 = true) :
    (ping_host e).2.2 = none := by
  cases e <;> simp_all [ping_host]

theorem check_http_err (e : HttpEnv) (h : (check_http e).1 = true) :
    (check_http e).2.2.1 = none := by
  cases e with
  | response code ct elapsed =>
    by_cases hc : 200 ≤ code ∧ code < 400 <;> simp_all [check_http, hc]
  | timeout => simp_all [check_http]
  | exc msg => simp_all [check_http]

theorem agent_check_http_err (e : HttpEnv) (h : (agent_check_http e).1 = true) :
    (agent_check_http e).2.2.1 = none := by
  cases e with
  | response code ct elapsed =>
    by_cases hc : 200 ≤ code ∧ code < 400 <;> simp_all [agent_check_http, hc]
  | timeout => simp_all [agent_check_http]
  | exc msg => simp_all [agent_check_http]

theorem check_tcp_err (e : TcpEnv) (h : (check_tcp e).1 = true) :
    (check_tcp e).2.2 = none := by
  cases e with
  | connectResult code elapsed =>
    by_cases hc : code = 0 <;> simp_all [check_tcp, hc]
  | timeout => simp_all [check_tcp]
  | gaierror msg => simp_all [check_tcp]
  | exc msg => simp_all [check_tcp]

theorem check_dns_err (e : DnsEnv) (h : (check_dns e).1 = true) :
    (check_dns e).2.2 = none := by
  cases e with
  | digResult rc ne elapsed =>
    by_cases hc : rc = 0 ∧ ne = true <;> simp_all [check_dns, hc]
  | timeout => simp_all [check_dns]
  | digMissing fb => cases fb <;> simp_all [check_dns]
  | exc msg => simp_all [check_dns]

theorem agent_check_dns_err (e : AgentDnsEnv) (h : (agent_check_dns e).1 = true) :
    (agent_check_dns e).2.2 = none := by
  cases e with
  | digResult rc ne elapsed =>
    by_cases hc : rc = 0 ∧ ne = true <;> simp_all [agent_check_dns, hc]
  | digMissing fb => cases fb <;> simp_all [agent_check_dns]
  | exc msg => simp_all [agent_check_dns]

/-- Every success path of every protocol checker carries a None error. -/
theorem probe_result_success_error (t : Target) (env : Envs)
    (h : (probe_result t env).1 = true) : (probe_result t env).2.2.1 = none := by
  simp only [probe_result] at h ⊢
  split_ifs at h ⊢ with h1 h2 h3 h4
  · exact ping_host_err env.ping h
  · exact check_http_err env.http h
  · exact check_tcp_err env.tcp h
  · exact check_dns_err env.dns h

theorem agent_probe_result_success_error (t : Target) (env : AgentEnvs)
    (h : (agent_probe_result t env).1 = true) :
    (agent_probe_result t env).2.2.1 = none := by
  simp only [agent_probe_result] at h ⊢
  split_ifs at h ⊢ with h1 h2 h3 h4
  · exact agent_check_http_err env.http h
  · exact ping_host_err env.ping h
  · exact check_tcp_err env.tcp h
  · exact agent_check_dns_err env.dns h

theorem derive_status_deg {l : ℚ} (h : 500 < l) :
    derive_status true l = "degraded" := by simp [derive_status, h]

theorem derive_status_online {l : ℚ} (h : l ≤ 500) :
    derive_status true l = "online" := by simp [derive_status, not_lt.2 h]

theorem derive_status_false (l : ℚ) : derive_status false l = "offline" := rfl

theorem agent_status_deg {l : ℚ} (h : 500 < l) :
    agent_status true l = "degraded" := by simp [agent_status, not_le.2 h]

theorem agent_status_online {l : ℚ} (h : l ≤ 500) :
    agent_status true l = "online" := by simp [agent_status, h]

theorem agent_status_false (l : ℚ) : agent_status false l = "offline" := by
  simp [agent_status]

theorem derive_status_mem (s : Bool) (l : ℚ) :
    derive_status s l = "online" ∨ derive_status s l = "degraded" ∨
      derive_status s l = "offline" := by
  cases s
  · exact Or.inr (Or.inr rfl)
  · by_cases h : 500 < l
    · exact Or.inr (Or.inl (derive_status_deg h))
    · exact Or.inl (derive_status_online (not_lt.1 h))

theorem agent_status_mem (s : Bool) (l : ℚ) :
    agent_status s l = "online" ∨ agent_status s l = "degraded" ∨
      agent_status s l = "offline" := by
  cases s
  · exact Or.inr (Or.inr (agent_status_false l))
  · by_cases h : l ≤ 500
    · exact Or.inl (agent_status_online h)
    · exact Or.inr (Or.inl (agent_status_deg (not_le.1 h)))

theorem derive_status_success {s : Bool} {l : ℚ}
    (h : derive_status s l = "online" ∨ derive_status s l = "degraded") :
    s = true := by
  cases s
  · rw [derive_status_false] at h
    rcases h with h | h <;> simp at h
  · rfl

theorem agent_status_success {s : Bool} {l : ℚ}
    (h : agent_status s l = "online" ∨ agent_status s l = "degraded") :
    s = true := by
  cases s
  · rw [agent_status_false] at h
    rcases h with h | h <;> simp at h
  · rfl

/-- Concrete fixtures used by witnesses. -/
def tPing : Target := ⟨"t1", "h1", some "ping", none, none⟩

def envSlow : Envs :=
  ⟨.okParsed 600, .response 200 none 600, .connectResult 0 600, .digResult 0 true 600⟩

def aenvSlow : AgentEnvs :=
  ⟨.okParsed 600, .response 200 none 600, .connectResult 0 600, .digResult 0 true 600⟩

/-- Claim C1: for every probe outcome of either pipeline (server
check_target, agent run_target), regardless of protocol: success with
latency above 500 gives status degraded, success with latency at most 500
gives status online, and failure gives status offline. -/
theorem claim_C1 (t : Target) (env : Envs) (aenv : AgentEnvs) (now anow : Int) :
    ((probe_result t env).1 = true → 500 < (probe_result t env).2.1 →
        (check_target t env now).status = "degraded") ∧
    ((probe_result t env).1 = true → (probe_result t env).2.1 ≤ 500 →
        (check_target t env now).status = "online") ∧
    ((probe_result t env).1 = false →
        (check_target t env now).status = "offline") ∧
    ((agent_probe_result t aenv).1 = true → 500 < (agent_probe_result t aenv).2.1 →
        (agent_run_target t aenv anow).status = "degraded") ∧
    ((agent_probe_result t aenv).1 = true → (agent_probe_result t aenv).2.1 ≤ 500 →
        (agent_run_target t aenv anow).status = "online") ∧
    ((agent_probe_result t aenv).1 = false →
        (agent_run_target t aenv anow).status = "offline") := by
  refine ⟨fun hs hl => ?_, fun hs hl => ?_, fun hs => ?_,
    fun hs hl => ?_, fun hs hl => ?_, fun hs => ?_⟩
  · rw [check_target_status, hs]; exact derive_status_deg hl
  · rw [check_target_status, hs]; exact derive_status_online hl
  · rw [check_target_status, hs]; exact derive_status_false _
  · rw [agent_run_target_status, hs]; exact agent_status_deg hl
  · rw [agent_run_target_status, hs]; exact agent_status_online hl
  · rw [agent_run_target_status, hs]; exact agent_status_false _

theorem claim_C1_witness :
    ((probe_result tPing envSlow).1 = true ∧ 500 < (probe_result tPing envSlow).2.1 ∧
      (check_target tPing envSlow 0).status = "degraded") ∧
    ((agent_probe_result tPing aenvSlow).1 = false →
      (agent_run_target tPing aenvSlow 0).status = "offline") :=
  ⟨⟨rfl, by decide, (claim_C1 tPing envSlow aenvSlow 0 0).1 rfl (by decide)⟩,
    (claim_C1 tPing envSlow aenvSlow 0 0).2.2.2.2.2⟩

/-- Claim C9: in both pipelines, an outcome whose status is online or
degraded always carries error = None; a non-None error occurs only with
status offline. -/
theorem claim_C9 (t : Target) (env : Envs) (aenv : AgentEnvs) (now anow : Int) :
    ((check_target t env now).status = "online" ∨
        (check_target t env now).status = "degraded" →
      (check_target t env now).error = none) ∧
    ((agent_run_target t aenv anow).status = "online" ∨
        (agent_run_target t aenv anow).status = "degraded" →
      (agent_run_target t aenv anow).error = none) := by
  constructor
  · intro h
    rw [check_target_status] at h
    rw [check_target_error]
    exact probe_result_success_error t env (derive_status_success h)
  · intro h
    rw [agent_run_target_status] at h
    rw [agent_run_target_error]
    exact agent_probe_result_success_error t aenv (agent_status_success h)

theorem claim_C9_witness :
    ((check_target tPing envSlow 0).status = "degraded" ∧
      (check_target tPing envSlow 0).error = none) ∧
    ((agent_run_target tPing aenvSlow 0).status = "degraded" ∧
      (agent_run_target tPing aenvSlow 0).error = none) :=
  ⟨⟨by decide, (claim_C9 tPing envSlow aenvSlow 0 0).1 (Or.inr (by decide))⟩,
    ⟨by decide, (claim_C9 tPing envSlow aenvSlow 0 0).2 (Or.inr (by decide))⟩⟩

theorem probe_result_unknown (t : Target) (env : Envs)
    (h : ¬(t.type.getD "ping" = "ping" ∨ t.type.getD "ping" = "http" ∨
      t.type.getD "ping" = "tcp" ∨ t.type.getD "ping" = "dns")) :
    probe_result t env = (false, 0, none, none) := by
  push_neg at h
  obtain ⟨h1, h2, h3, h4⟩ := h
  simp only [probe_result]
  simp [h1, h2, h3, h4]

theorem agent_probe_result_unknown (t : Target) (env : AgentEnvs)
    (h : ¬(t.type.getD "ping" = "ping" ∨ t.type.getD "ping" = "http" ∨
      t.type.getD "ping" = "tcp" ∨ t.type.getD "ping" = "dns")) :
    agent_probe_result t env = (false, 0, some "Unknown type", none) := by
  push_neg at h
  obtain ⟨h1, h2, h3, h4⟩ := h
  simp only [agent_probe_result]
  simp [h1, h2, h3, h4]

/-- Claim C10: both pipelines always return an outcome whose status is one
of exactly online, degraded, offline, for every target including one with
an unrecognized type string; an unrecognized type yields status offline
(and, in the agent, error Unknown type) rather than an exception. -/
theorem claim_C10 (t : Target) (env : Envs) (aenv : AgentEnvs) (now anow : Int) :
    ((check_target t env now).status = "online" ∨
      (check_target t env now).status = "degraded" ∨
      (check_target t env now).status = "offline") ∧
    ((agent_run_target t aenv anow).status = "online" ∨
      (agent_run_target t aenv anow).status = "degraded" ∨
      (agent_run_target t aenv anow).status = "offline") ∧
    (¬(t.type.getD "ping" = "ping" ∨ t.type.getD "ping" = "http" ∨
        t.type.getD "ping" = "tcp" ∨ t.type.getD "ping" = "dns") →
      (check_target t env now).status = "offline" ∧
      (agent_run_target t aenv anow).status = "offline" ∧
      (agent_run_target t aenv anow).error = some "Unknown type") := by
  refine ⟨?_, ?_, fun h => ⟨?_, ?_, ?_⟩⟩
  · rw [check_target_status]; exact derive_status_mem _ _
  · rw [agent_run_target_status]; exact agent_status_mem _ _
  · rw [check_target_status, probe_result_unknown t env h]
    exact derive_status_false _
  · rw [agent_run_target_status, agent_probe_result_unknown t aenv h]
    exact agent_status_false _
  · rw [agent_run_target_error, agent_probe_result_unknown t aenv h]

/-- A target whose type string is not one of the four recognized probe
protocols. -/
def tBogus : Target := ⟨"t2", "h2", some "quic", none, none⟩

theorem claim_C10_witness :
    ¬(tBogus.type.getD "ping" = "ping" ∨ tBogus.type.getD "ping" = "http" ∨
        tBogus.type.getD "ping" = "tcp" ∨ tBogus.type.getD "ping" = "dns") ∧
    (check_target tBogus envSlow 0).status = "offline" ∧
    (agent_run_target tBogus aenvSlow 0).status = "offline" ∧
    (agent_run_target tBogus aenvSlow 0).error = some "Unknown type" :=
  ⟨by decide, (claim_C10 tBogus envSlow aenvSlow 0 0).2.2 (by decide)⟩

/-! ## The Store: the checks table of src/app.py and its queries. -/

/-- One row of the checks table: a check outcome plus the AUTOINCREMENT
primary key id (the insertion sequence id). -/
structure Row where
  id : Nat
  agent_id : String
  target_name : String
  host : Option String
  type : Option String
  status : String
  latency_ms : ℚ
  timestamp : Int
  error : Option String
  details : Option HttpDetails
deriving DecidableEq, Repr

/-- The WHERE clause agent_id = a AND target_name = t. -/
def keyMatches (a t : String) (r : Row) : Bool :=
  r.agent_id == a && r.target_name == t

/-- The grouped subquery of get_latest_statuses: SELECT MAX(id) FROM
checks GROUP BY agent_id, target_name, read off for the group (a, t);
none when no row has that key. -/
def groupMaxId (rs : List Row) (a t : String) : Option Nat :=
  ((rs.filter (keyMatches a t)).map Row.id).max?

/-- src/app.py get_latest_statuses lines 158-170: the group-max join
keeps a row precisely when its id is the MAX(id) of its own
(agent_id, target_name) group. -/
def get_latest_statuses (rs : List Row) : List Row :=
  rs.filter (fun c => groupMaxId rs c.agent_id c.target_name == some c.id)

theorem keyMatches_iff {a t : String} {r : Row} :
    keyMatches a t r = true ↔ r.agent_id = a ∧ r.target_name = t := by
  simp [keyMatches]

/-- The group maximum bounds every id in the group. -/
theorem groupMaxId_ub {rs : List Row} {a t : String} {m : Nat}
    (hm : groupMaxId rs a t = some m) :
    ∀ s ∈ rs, keyMatches a t s = true → s.id ≤ m := by
  intro s hs hks
  rw [groupMaxId] at hm
  exact (List.max?_eq_some_iff'.1 hm).2 s.id
    (List.mem_map.2 ⟨s, List.mem_filter.2 ⟨hs, hks⟩, rfl⟩)

/-- A nonempty group has a maximum, attained by some row of the group. -/
theorem groupMaxId_mem {rs : List Row} {a t : String} {w0 : Row}
    (hw0 : w0 ∈ rs) (hk0 : keyMatches a t w0 = true) :
    ∃ m, groupMaxId rs a t = some m ∧
      ∃ w ∈ rs, keyMatches a t w = true ∧ w.id = m := by
  cases hm : groupMaxId rs a t with
  | none =>
    rw [groupMaxId, List.max?_eq_none_iff, List.map_eq_nil_iff] at hm
    have : w0 ∈ rs.filter (keyMatches a t) := List.mem_filter.2 ⟨hw0, hk0⟩
    rw [hm] at this
    exact absurd this (List.not_mem_nil _)
  | some m =>
    refine ⟨m, rfl, ?_⟩
    have hmem : m ∈ (rs.filter (keyMatches a t)).map Row.id :=
      (List.max?_eq_some_iff'.1 (by rw [groupMaxId] at hm; exact hm)).1
    obtain ⟨w, hwF, hwid⟩ := List.mem_map.1 hmem
    obtain ⟨hwrs, hkw⟩ := List.mem_filter.1 hwF
    exact ⟨w, hwrs, hkw, hwid⟩

/-- A row of the latest-per-key view with key (a, t) carries the maximum
id of its group. -/
theorem latest_id_eq_max {rs : List Row} {a t : String} {r : Row}
    (hr : r ∈ get_latest_statuses rs) (hkr : keyMatches a t r = true) :
    groupMaxId rs a t = some r.id := by
  obtain ⟨hrrs, hPr⟩ := List.mem_filter.1 hr
  obtain ⟨ha, ht⟩ := keyMatches_iff.1 hkr
  rw [ha, ht] at hPr
  exact beq_iff_eq.1 hPr

/-- Claim C2: with unique sequence ids, the latest-per-key query returns
exactly one record for each distinct (agent_id, target_name) pair present
in the store, namely the record with the maximum sequence id among all
records with that key. -/
theorem claim_C2 (rs : List Row) (hids : (rs.map Row.id).Nodup)
    (a t : String) (hpres : ∃ r ∈ rs, keyMatches a t r = true) :
    (get_latest_statuses rs).countP (keyMatches a t) = 1 ∧
    ∀ r ∈ get_latest_statuses rs, keyMatches a t r = true →
      r ∈ rs ∧ ∀ s ∈ rs, keyMatches a t s = true → s.id ≤ r.id := by
  obtain ⟨w0, hw0, hk0⟩ := hpres
  obtain ⟨m, hm, w, hwrs, hkw, hwid⟩ := groupMaxId_mem hw0 hk0
  have hnd : rs.Nodup := List.Nodup.of_map _ hids
  constructor
  · rw [get_latest_statuses, List.countP_filter]
    have hcong : rs.countP (fun c => keyMatches a t c &&
        (groupMaxId rs c.agent_id c.target_name == some c.id)) =
        rs.countP (· == w) := by
      apply List.countP_congr
      intro c hc
      constructor
      · intro hcc
        rw [Bool.and_eq_true] at hcc
        obtain ⟨hk, hP⟩ := hcc
        obtain ⟨ha, ht⟩ := keyMatches_iff.1 hk
        rw [ha, ht] at hP
        have hcid : groupMaxId rs a t = some c.id := beq_iff_eq.1 hP
        have hcm : c.id = m := Option.some.inj (hcid.symm.trans hm)
        have : c = w :=
          List.inj_on_of_nodup_map hids hc hwrs (by rw [hcm, hwid])
        simp [this]
      · intro hcc
        have hcw : c = w := beq_iff_eq.1 hcc
        subst hcw
        rw [Bool.and_eq_true]
        refine ⟨hkw, ?_⟩
        obtain ⟨ha, ht⟩ := keyMatches_iff.1 hkw
        rw [ha, ht, beq_iff_eq, hm, hwid]
    rw [hcong, ← List.count_eq_countP]
    exact List.count_eq_one_of_mem hnd hwrs
  · intro r hr hkr
    refine ⟨(List.mem_filter.1 hr).1, fun s hs hks => ?_⟩
    exact groupMaxId_ub (latest_id_eq_max hr hkr) s hs hks

/-- Concrete rows used by witnesses. -/
def row1 : Row := ⟨1, "a1", "t1", none, some "ping", "online", 10, 100, none, none⟩

def row2 : Row := ⟨2, "a1", "t1", none, some "ping", "offline", 0, 200, some "Timeout", none⟩

def row3 : Row := ⟨3, "a2", "t1", none, some "ping", "online", 20, 50, none, none⟩

theorem claim_C2_witness :
    (([row1, row2, row3].map Row.id).Nodup ∧
      ∃ r ∈ [row1, row2, row3], keyMatches "a1" "t1" r = true) ∧
    (get_latest_statuses [row1, row2, row3]).countP (keyMatches "a1" "t1") = 1 :=
  ⟨⟨by decide, ⟨row1, by decide⟩⟩,
    (claim_C2 [row1, row2, row3] (by decide) "a1" "t1" ⟨row1, by decide⟩).1⟩

/-- One pass of the retention sweep body in src/app.py
cleanup_old_records_loop lines 234-243: cutoff = now minus
retention_hours * 3600 seconds; DELETE FROM checks WHERE timestamp <
cutoff. -/
def cleanup_old_records (now retention_hours : Int) (rs : List Row) : List Row :=
  rs.filter (fun r => !decide (r.timestamp < now - retention_hours * 3600))

/-- Claim C5: one retention sweep deletes all and only the records with
timestamp < now - horizon (the survivors are a sublist, every deleted
record was strictly older than the cutoff, every kept record is not), and
an immediately repeated sweep with the same clock reading and no
intervening writes is a no-op. -/
theorem claim_C5 (now retention_hours : Int) (rs : List Row) :
    (∀ r, r ∈ cleanup_old_records now retention_hours rs ↔
        r ∈ rs ∧ ¬(r.timestamp < now - retention_hours * 3600)) ∧
    (cleanup_old_records now retention_hours rs).Sublist rs ∧
    cleanup_old_records now retention_hours
        (cleanup_old_records now retention_hours rs) =
      cleanup_old_records now retention_hours rs := by
  refine ⟨fun r => ?_, List.filter_sublist _, ?_⟩
  · simp [cleanup_old_records]
  · rw [cleanup_old_records, cleanup_old_records, List.filter_filter]
    congr 1
    funext r
    exact Bool.and_self _

theorem claim_C5_witness :
    (row1 ∈ cleanup_old_records 3700 1 [row1, row2, row3] ↔
      row1 ∈ [row1, row2, row3] ∧ ¬((row1.timestamp : Int) < 3700 - 1 * 3600)) ∧
    cleanup_old_records 3700 1 (cleanup_old_records 3700 1 [row1, row2, row3]) =
      cleanup_old_records 3700 1 [row1, row2, row3] :=
  ⟨(claim_C5 3700 1 [row1, row2, row3]).1 row1,
    (claim_C5 3700 1 [row1, row2, row3]).2.2⟩

/-- ORDER BY timestamp DESC as a relation on rows. -/
def tsDesc (x y : Row) : Prop := y.timestamp ≤ x.timestamp

instance : DecidableRel tsDesc :=
  fun x y => inferInstanceAs (Decidable (y.timestamp ≤ x.timestamp))

instance : IsTotal Row tsDesc := ⟨fun x y => le_total y.timestamp x.timestamp⟩

instance : IsTrans Row tsDesc := ⟨fun _ _ _ h1 h2 => le_trans h2 h1⟩

/-- src/app.py get_recent_history lines 218-231: rows of the requested
(agent_id, target_name) pair, ordered by timestamp descending, LIMIT
limit, then reversed into chronological order. -/
def get_recent_history (rs : List Row) (a t : String) (limit : Nat) : List Row :=
  ((List.insertionSort tsDesc (rs.filter (keyMatches a t))).take limit).reverse

/-- Claim C6: the recent-window query returns at most limit records, all
with the requested agent_id and target_name, in ascending timestamp
order, and they are the most recent limit records for that key: all
remaining records of that key have timestamps at most those returned. -/
theorem claim_C6 (rs : List Row) (a t : String) (limit : Nat) :
    (get_recent_history rs a t limit).length ≤ limit ∧
    (∀ r ∈ get_recent_history rs a t limit,
      r.agent_id = a ∧ r.target_name = t) ∧
    (get_recent_history rs a t limit).Pairwise
      (fun x y => x.timestamp ≤ y.timestamp) ∧
    ∃ rest, (rs.filter (keyMatches a t)).Perm
        ((get_recent_history rs a t limit).reverse ++ rest) ∧
      ∀ r ∈ get_recent_history rs a t limit, ∀ s ∈ rest,
        s.timestamp ≤ r.timestamp := by
  refine ⟨?_, ?_, ?_, ?_⟩
  · rw [get_recent_history, List.length_reverse, List.length_take]
    exact min_le_left _ _
  · intro r hr
    rw [get_recent_history, List.mem_reverse] at hr
    have hr2 : r ∈ List.insertionSort tsDesc (rs.filter (keyMatches a t)) :=
      List.take_subset _ _ hr
    rw [List.mem_insertionSort] at hr2
    exact keyMatches_iff.1 (List.mem_filter.1 hr2).2
  · rw [get_recent_history, List.pairwise_reverse]
    exact List.Pairwise.sublist (List.take_sublist _ _)
      (List.sorted_insertionSort tsDesc (rs.filter (keyMatches a t)))
  · refine ⟨(List.insertionSort tsDesc (rs.filter (keyMatches a t))).drop limit,
      ?_, ?_⟩
    · rw [get_recent_history, List.reverse_reverse, List.take_append_drop]
      exact (List.perm_insertionSort tsDesc _).symm
    · intro r hr s hs
      rw [get_recent_history, List.mem_reverse] at hr
      have hsorted := List.sorted_insertionSort tsDesc (rs.filter (keyMatches a t))
      rw [← List.take_append_drop limit
        (List.insertionSort tsDesc (rs.filter (keyMatches a t))),
        List.Sorted, List.pairwise_append] at hsorted
      exact hsorted.2.2 r hr s hs

theorem claim_C6_witness :
    (get_recent_history [row1, row2, row3] "a1" "t1" 1).length ≤ 1 ∧
    (get_recent_history [row1, row2, row3] "a1" "t1" 1).Pairwise
      (fun x y => x.timestamp ≤ y.timestamp) :=
  ⟨(claim_C6 [row1, row2, row3] "a1" "t1" 1).1,
    (claim_C6 [row1, row2, row3] "a1" "t1" 1).2.2.1⟩

/-! ## The Ingestor: POST /api/ingest and the persistence path. -/

/-- The mutable Store: the checks table plus the next AUTOINCREMENT id. -/
structure Store where
  rows : List Row
  nextId : Nat
deriving DecidableEq, Repr

/-- src/app.py insert_check: bind the nine column values (agent_id, the
host and type from the target dict, and the CheckResult fields) and
insert one row; the id is the AUTOINCREMENT value. -/
def insert_check (s : Store) (agent_id : String) (host typ : Option String)
    (r : CheckResult) : Store :=
  { rows := s.rows ++ [⟨s.nextId, agent_id, r.target_name, host, typ,
      r.status, r.latency_ms, r.timestamp, r.error, r.details⟩]
    nextId := s.nextId + 1 }

/-- One well-formed element of the checks array of an ingest payload:
the values api_ingest binds into a CheckResult plus the host and type
keys. -/
structure CheckItem where
  target_name : String
  host : Option String
  type : Option String
  status : String
  latency_ms : ℚ
  timestamp : Int
  error : Option String
  details : Option HttpDetails
deriving DecidableEq, Repr

/-- The CheckResult api_ingest constructs from one batch element. -/
def CheckItem.toResult (c : CheckItem) : CheckResult :=
  ⟨c.target_name, c.status, c.latency_ms, c.timestamp, c.error, c.details⟩

/-- One iteration of the ingest loop of src/app.py api_ingest lines
534-547. A batch element whose record construction or insertion raises
(a malformed record, for example a value sqlite cannot bind) is embedded
as none: the try/except skips it without touching the store or the
counter. -/
def ingest_step (agent_id : String) (acc : Store × Nat)
    (c : Option CheckItem) : Store × Nat :=
  match c with
  | some c => (insert_check acc.1 agent_id c.host c.type c.toResult, acc.2 + 1)
  | none => acc

/-- The ingest loop: persist each well-formed record independently,
counting insertions. -/
def ingest_checks (s : Store) (agent_id : String)
    (items : List (Option CheckItem)) : Store × Nat :=
  items.foldl (ingest_step agent_id) (s, 0)

/-- The payload dict of POST /api/ingest; checks = none embeds a JSON
body without a checks key. -/
structure IngestPayload where
  agent_id : Option String
  checks : Option (List (Option CheckItem))
deriving DecidableEq, Repr

/-- An ingest request: the X-API-Key header (none = header absent) and
the parsed JSON body (none = missing, unparsable or empty body). -/
structure IngestRequest where
  apiKey : Option String
  payload : Option IngestPayload
deriving DecidableEq, Repr

/-- The three responses of api_ingest: 401 Unauthorized, 400 Invalid
payload, and 200 with the received count. -/
inductive IngestResponse where
  | unauthorized
  | invalidPayload
  | ok (received : Nat)
deriving DecidableEq, Repr

/-- src/app.py api_ingest lines 520-549. The auth test mirrors Python
(not api_key or api_key != APP_CONFIG.get(api_key-key)): a missing or
empty header, or a header different from the configured key (itself
possibly unset), rejects with 401; a missing body or a body without a
checks key rejects with 400; otherwise the loop persists each record and
the count is returned. -/
def api_ingest (cfgKey : Option String) (req : IngestRequest) (s : Store) :
    IngestResponse × Store :=
  let keyFalsy := match req.apiKey with
    | none => true
    | some k => k == ""
  let keyMismatch := match req.apiKey with
    | none => true
    | some k => !(cfgKey == some k)
  if keyFalsy || keyMismatch then (.unauthorized, s)
  else match req.payload with
    | none => (.invalidPayload, s)
    | some p =>
      match p.checks with
      | none => (.invalidPayload, s)
      | some items =>
        let r := ingest_checks s (p.agent_id.getD "unknown") items
        (.ok r.2, r.1)

theorem ingest_fold_spec (agent_id : String) :
    ∀ (items : List (Option CheckItem)) (acc : Store × Nat),
      (items.foldl (ingest_step agent_id) acc).2 =
        acc.2 + items.countP Option.isSome ∧
      (items.foldl (ingest_step agent_id) acc).1.rows.length =
        acc.1.rows.length + items.countP Option.isSome := by
  intro items
  induction items with
  | nil => intro acc; simp
  | cons c rest ih =>
    intro acc
    rw [List.foldl_cons]
    obtain ⟨ih1, ih2⟩ := ih (ingest_step agent_id acc c)
    cases c with
    | none =>
      refine ⟨?_, ?_⟩
      · rw [ih1]; simp [ingest_step, List.countP_cons]
      · rw [ih2]; simp [ingest_step, List.countP_cons]
    | some d =>
      refine ⟨?_, ?_⟩
      · rw [ih1]; simp [ingest_step, List.countP_cons]; omega
      · rw [ih2]
        simp [ingest_step, insert_check, List.countP_cons]
        omega

theorem ingest_checks_received (s : Store) (agent_id : String)
    (items : List (Option CheckItem)) :
    (ingest_checks s agent_id items).2 = items.countP Option.isSome := by
  simpa [ingest_checks] using (ingest_fold_spec agent_id items (s, 0)).1

theorem ingest_checks_rows (s : Store) (agent_id : String)
    (items : List (Option CheckItem)) :
    (ingest_checks s agent_id items).1.rows.length =
      s.rows.length + items.countP Option.isSome := by
  simpa [ingest_checks] using (ingest_fold_spec agent_id items (s, 0)).2

theorem countP_isSome_of_isNone {items : List (Option CheckItem)}
    (h : items.countP Option.isNone = 1) :
    items.countP Option.isSome = items.length - 1 := by
  have hlen := List.length_eq_countP_add_countP Option.isSome items
  have hcong : items.countP (fun a => decide (¬(Option.isSome a = true))) =
      items.countP Option.isNone :=
    List.countP_congr (fun a _ => by cases a <;> simp)
  rw [hcong] at hlen
  omega

/-- Claim C4: ingesting an authorized batch of N records of which exactly
one is malformed persists exactly N-1 records, the response reports
received = N-1, and the malformed record never aborts the rest of the
batch. -/
theorem claim_C4 (k : String) (aid : Option String) (s : Store)
    (items : List (Option CheckItem)) (hk : k ≠ "")
    (hbad : items.countP Option.isNone = 1) :
    (api_ingest (some k) ⟨some k, some ⟨aid, some items⟩⟩ s).1 =
      .ok (items.length - 1) ∧
    (api_ingest (some k) ⟨some k, some ⟨aid, some items⟩⟩ s).2.rows.length =
      s.rows.length + (items.length - 1) := by
  have hkf : (k == "") = false := beq_eq_false_iff_ne.mpr hk
  have hcnt := countP_isSome_of_isNone hbad
  constructor
  · simp [api_ingest, hkf, ingest_checks_received, hcnt]
  · simp [api_ingest, hkf, ingest_checks_rows, hcnt]

/-- A well-formed batch element used by witnesses. -/
def item1 : CheckItem :=
  ⟨"t1", some "h1", some "ping", "online", 10, 100, none, none⟩

theorem claim_C4_witness :
    ("secret" ≠ "" ∧
      ([some item1, none, some item1].countP Option.isNone = 1)) ∧
    (api_ingest (some "secret")
        ⟨some "secret", some ⟨none, some [some item1, none, some item1]⟩⟩
        ⟨[], 0⟩).1 = .ok 2 :=
  ⟨⟨by decide, by decide⟩,
    (claim_C4 "secret" none ⟨[], 0⟩ [some item1, none, some item1]
      (by decide) (by decide)).1⟩

/-- Claim C7 (amended): 401 for every request whose X-API-Key header is
absent, empty, or different from the configured key; with a non-empty
matching key, 400 when the body is missing or lacks a checks list;
with a non-empty matching key and a checks list, 200 with received = the
number of records persisted; the store is unchanged on 401 and 400. -/
theorem claim_C7 (cfgKey : Option String) (req : IngestRequest) (s : Store) :
    ((req.apiKey = none ∨ req.apiKey = some "" ∨ cfgKey ≠ req.apiKey) →
      api_ingest cfgKey req s = (.unauthorized, s)) ∧
    (∀ k, req.apiKey = some k → k ≠ "" → cfgKey = some k →
      ((req.payload = none → api_ingest cfgKey req s = (.invalidPayload, s)) ∧
       (∀ p, req.payload = some p → p.checks = none →
          api_ingest cfgKey req s = (.invalidPayload, s)) ∧
       (∀ p items, req.payload = some p → p.checks = some items →
          api_ingest cfgKey req s =
            (.ok ((ingest_checks s (p.agent_id.getD "unknown") items).2),
              (ingest_checks s (p.agent_id.getD "unknown") items).1)))) := by
  constructor
  · intro h
    cases hk : req.apiKey with
    | none => simp [api_ingest, hk]
    | some k =>
      rcases h with h | h | h
      · rw [hk] at h; exact absurd h (by simp)
      · rw [hk] at h
        have : k = "" := by injection h
        simp [api_ingest, hk, this]
      · rw [hk] at h
        have : (cfgKey == some k) = false := beq_eq_false_iff_ne.mpr h
        simp [api_ingest, hk, this]
  · intro k hk hne hcfg
    have hkf : (k == "") = false := beq_eq_false_iff_ne.mpr hne
    refine ⟨fun hp => ?_, fun p hp hc => ?_, fun p items hp hc => ?_⟩
    · simp [api_ingest, hk, hkf, hcfg, hp]
    · simp [api_ingest, hk, hkf, hcfg, hp, hc]
    · simp [api_ingest, hk, hkf, hcfg, hp, hc]

/-- Counterexample to claim C7 as stated: with the configured shared
secret equal to the empty string, a request whose X-API-Key header is
present and equal to the configured secret and whose body carries a
checks list is rejected with 401 and nothing is persisted, where the
claim as stated promises a 200 response (the code also treats an empty
header value as missing). -/
theorem claim_C7_counterexample :
    (⟨some "", some ⟨none, some [some item1]⟩⟩ : IngestRequest).apiKey =
      some "" ∧
    api_ingest (some "") ⟨some "", some ⟨none, some [some item1]⟩⟩ ⟨[], 0⟩ =
      (.unauthorized, ⟨[], 0⟩) ∧
    IngestResponse.unauthorized ≠ .ok 1 := by
  refine ⟨rfl, by decide, by decide⟩

theorem claim_C7_witness :
    api_ingest (some "s") ⟨some "x", some ⟨none, some []⟩⟩ ⟨[], 0⟩ =
      (.unauthorized, ⟨[], 0⟩) :=
  (claim_C7 (some "s") ⟨some "x", some ⟨none, some []⟩⟩ ⟨[], 0⟩).1
    (Or.inr (Or.inr (by decide)))

/-- The AUTOINCREMENT invariant of the checks table: every row id is
below the next id to be assigned, and ids are unique. This is the
invariant that justifies the unique-ids hypothesis of the latest-per-key
theorem. -/
def Store.WF (s : Store) : Prop :=
  (∀ r ∈ s.rows, r.id < s.nextId) ∧ (s.rows.map Row.id).Nodup

/-- insert_check preserves the AUTOINCREMENT invariant. -/
theorem insert_check_WF (s : Store) (agent_id : String)
    (host typ : Option String) (r : CheckResult) (h : Store.WF s) :
    Store.WF (insert_check s agent_id host typ r) := by
  obtain ⟨hlt, hnd⟩ := h
  refine ⟨?_, ?_⟩
  · intro x hx
    simp only [insert_check, List.mem_append, List.mem_singleton] at hx
    rcases hx with hx | rfl
    · exact Nat.lt_succ_of_lt (hlt x hx)
    · exact Nat.lt_succ_self _
  · simp only [insert_check, List.map_append, List.map_cons, List.map_nil]
    refine List.Nodup.append hnd (List.nodup_singleton _) ?_
    intro a ha hb
    rw [List.mem_singleton] at hb
    obtain ⟨x, hx, rfl⟩ := List.mem_map.1 ha
    exact absurd (hlt x hx) (by simp [hb])

/-! ## The Reporter: src/agent.py send_batch. -/

/-- src/agent.py send_batch lines 167-183, driven by resp i = whether
attempt i (0-based) received a 200 response (a non-200 response and a
transport error are both failures). fuel is the number of loop
iterations left out of range(5). Returns (success reported, number of
send attempts made, sleeps performed in seconds, in order). -/
def send_batch_from (resp : Nat → Bool) : Nat → Nat → Bool × Nat × List Nat
  | 0, _ => (false, 0, [])
  | fuel + 1, attempt =>
    if resp attempt then (true, 1, [])
    else
      let r := send_batch_from resp fuel (attempt + 1)
      (r.1, r.2.1 + 1, 2 ^ attempt :: r.2.2)

/-- The whole send_batch call: for attempt in range(5). -/
def send_batch (resp : Nat → Bool) : Bool × Nat × List Nat :=
  send_batch_from resp 5 0

theorem send_batch_from_le (resp : Nat → Bool) :
    ∀ fuel attempt, (send_batch_from resp fuel attempt).2.1 ≤ fuel := by
  intro fuel
  induction fuel with
  | zero => intro attempt; simp [send_batch_from]
  | succ n ih =>
    intro attempt
    rw [send_batch_from]
    split
    · simp
    · simpa using Nat.succ_le_succ (ih (attempt + 1))

/-- Claim C3: with a collector failing the first 4 attempts and
succeeding on the 5th, send_batch makes exactly 5 attempts with sleeps
1, 2, 4, 8 seconds between consecutive attempts and reports success;
every run makes at most 5 attempts; and after 5 failures the batch is
dropped with failure reported (the code then also sleeps 16 seconds
before returning). -/
theorem claim_C3 :
    send_batch (fun i => decide (i = 4)) = (true, 5, [1, 2, 4, 8]) ∧
    (∀ resp : Nat → Bool, (send_batch resp).2.1 ≤ 5) ∧
    (∀ resp : Nat → Bool, (∀ i, i < 5 → resp i = false) →
      send_batch resp = (false, 5, [1, 2, 4, 8, 16])) := by
  refine ⟨by decide, fun resp => send_batch_from_le resp 5 0, ?_⟩
  intro resp h
  have h0 := h 0 (by norm_num)
  have h1 := h 1 (by norm_num)
  have h2 := h 2 (by norm_num)
  have h3 := h 3 (by norm_num)
  have h4 := h 4 (by norm_num)
  norm_num [send_batch, send_batch_from, h0, h1, h2, h3, h4]

theorem claim_C3_witness :
    send_batch (fun _ => false) = (false, 5, [1, 2, 4, 8, 16]) :=
  claim_C3.2.2 (fun _ => false) (fun _ _ => rfl)

/-! ## The Scheduler cycle: src/app.py run_checks. -/

/-- One gathered per-target result in src/app.py run_checks: either the
CheckResult the probe returned, or the exception it raised (embedded as
its text, str(result)). The conversion mirrors lines 420-431: a raised
result becomes a synthetic offline outcome with the failure text as
error; a returned result gets its timestamp rewritten to utcnow. -/
def normalize_result (t : Target) (now : Int) :
    Except String CheckResult → CheckResult
  | .error msg =>
      { target_name := t.name, status := "offline", latency_ms := 0,
        timestamp := now, error := some msg, details := none }
  | .ok r => { r with timestamp := now }

/-- One iteration of the persistence loop of run_checks: insert_check
with the agent identity and the host and type of the target dict. -/
def cycle_step (agent_id : String) (now : Int) (s : Store)
    (p : Target × Except String CheckResult) : Store :=
  insert_check s agent_id (some p.1.host) p.1.type (normalize_result p.1 now p.2)

/-- src/app.py run_checks lines 412-453: pair each target with its
gathered result, convert raised results into synthetic offline outcomes,
stamp every outcome with utcnow, and persist each one. Returns the
outcomes of the cycle and the store after it. The in-memory
monitoring_results cache is presentation-layer state and not modelled. -/
def run_checks (agent_id : String) (targets : List Target)
    (results : List (Except String CheckResult)) (now : Int) (s : Store) :
    List CheckResult × Store :=
  let pairs := targets.zip results
  (pairs.map (fun p => normalize_result p.1 now p.2),
    pairs.foldl (cycle_step agent_id now) s)

theorem cycle_fold_len (agent_id : String) (now : Int) :
    ∀ (pairs : List (Target × Except String CheckResult)) (s : Store),
      (pairs.foldl (cycle_step agent_id now) s).rows.length =
        s.rows.length + pairs.length := by
  intro pairs
  induction pairs with
  | nil => intro s; simp
  | cons p rest ih =>
    intro s
    rw [List.foldl_cons, ih]
    simp [cycle_step, insert_check]
    omega

/-- Claim C8: in a scheduler cycle, every target whose check raised gets
a synthetic offline outcome carrying the exception text as error, every
target whose check returned keeps its outcome (restamped), the cycle
still produces one outcome per target, and all of them are persisted:
one failing target never aborts the cycle. -/
theorem claim_C8 (agent_id : String) (targets : List Target)
    (results : List (Except String CheckResult)) (now : Int) (s : Store)
    (hlen : results.length = targets.length) :
    (run_checks agent_id targets results now s).1.length = targets.length ∧
    (run_checks agent_id targets results now s).2.rows.length =
      s.rows.length + targets.length ∧
    (∀ (i : Nat) (t : Target) (msg : String), targets[i]? = some t →
      results[i]? = some (Except.error msg) →
      (run_checks agent_id targets results now s).1[i]? =
        some (⟨t.name, "offline", 0, now, some msg, none⟩ : CheckResult)) ∧
    (∀ (i : Nat) (t : Target) (r : CheckResult),
      targets[i]? = some t → results[i]? = some (Except.ok r) →
      (run_checks agent_id targets results now s).1[i]? =
        some ({ r with timestamp := now } : CheckResult)) := by
  have hzlen : (targets.zip results).length = targets.length := by
    rw [List.length_zip, hlen, Nat.min_self]
  refine ⟨?_, ?_, ?_, ?_⟩
  · rw [run_checks]
    simpa using hzlen
  · rw [run_checks]
    simpa [cycle_fold_len agent_id now (targets.zip results) s] using hzlen
  · intro i t msg ht hr
    have hz : (targets.zip results)[i]? = some (t, Except.error msg) :=
      (@List.getElem?_zip_eq_some _ _ targets results
        (t, Except.error msg) i).mpr ⟨ht, hr⟩
    rw [run_checks]
    simp only [List.getElem?_map, hz, Option.map_some']
    rfl
  · intro i t r ht hr
    have hz : (targets.zip results)[i]? = some (t, Except.ok r) :=
      (@List.getElem?_zip_eq_some _ _ targets results
        (t, Except.ok r) i).mpr ⟨ht, hr⟩
    rw [run_checks]
    simp only [List.getElem?_map, hz, Option.map_some']
    rfl

theorem claim_C8_witness :
    (run_checks "local" [tPing, tBogus]
        [Except.error "boom", Except.ok ⟨"t2", "online", 10, 5, none, none⟩]
        77 ⟨[], 0⟩).1[0]? =
      some ⟨tPing.name, "offline", 0, 77, some "boom", none⟩ :=
  (claim_C8 "local" [tPing, tBogus]
      [Except.error "boom", Except.ok ⟨"t2", "online", 10, 5, none, none⟩]
      77 ⟨[], 0⟩ rfl).2.2.1 0 tPing "boom" rfl rfl

end NetworkRadar
